import Mathlib

/-
Verification of the System Guardian service-orchestration subsystem
(`backend/services/system_guardian/guardian.py`).

The Python module is shallowly embedded: each method becomes a pure Lean
function over an explicit state, and every interaction with the operating
system (listening sockets, process liveness, file existence, process
spawning, wall-clock time) is an explicit environment argument recording
the answers the OS would give.  Python dictionaries become association
lists, `None` becomes `Option.none`, raised-and-escaping exceptions become
`Except.error`, and timestamps are abstract naturals.
-/

set_option autoImplicit false

namespace Guardian

/-! ## Python dictionaries as association lists -/

/-- Dictionary lookup `d.get(n)` on a string-keyed dict. -/
def lookupAssoc {α : Type} (l : List (String × α)) (n : String) : Option α :=
  (List.find? (fun p => p.1 == n) l).map (·.2)

/-- Dictionary write `d[n] = v`: replace the first entry with that key,
or append when absent. -/
def setAssoc {α : Type} (l : List (String × α)) (n : String) (v : α) : List (String × α) :=
  match l with
  | [] => [(n, v)]
  | (k, w) :: rest => if k == n then (n, v) :: rest else (k, w) :: setAssoc rest n v

/-- Dictionary delete `del d[n]` (first entry with the key). -/
def eraseAssoc {α : Type} (l : List (String × α)) (n : String) : List (String × α) :=
  match l with
  | [] => []
  | (k, w) :: rest => if k == n then rest else (k, w) :: eraseAssoc rest n

/-- Number of entries carrying a key: 1 for a present dict key, 0 for an
absent one (a genuine dict never holds two). -/
def countAssoc {α : Type} (l : List (String × α)) (n : String) : Nat :=
  (l.filter (fun p => p.1 == n)).length

/-! ## Data model -/

/-- One entry of `STARTUP_ORDER`: a static service descriptor. -/
structure Config where
  name : String
  port : Nat
  path : String
  health_endpoint : String
deriving Repr, DecidableEq

/-- The fixed service registry `STARTUP_ORDER` from the source. -/
def STARTUP_ORDER : List Config :=
  [ ⟨"character_extraction", 8001, "backend/services/character_extraction/service.py", "/health"⟩,
    ⟨"document_processor", 8002, "backend/services/document_processor/service.py", "/health"⟩,
    ⟨"query_engine", 8003, "backend/services/query_engine/service.py", "/health"⟩,
    ⟨"metadata_service", 8004, "backend/services/metadata_service/service.py", "/health"⟩,
    ⟨"rag_service", 8005, "backend/services/rag_service/service.py", "/health"⟩ ]

/--
The per-service runtime-state dictionary `self.services[name]`.
`pid` is `Option Nat` because `is_port_in_use` can hand back `conn.pid`,
which psutil reports as `None` when unknown.  `restart_count` and
`last_restart` are `Option` because the external-adoption branch of
`start_service` creates a dictionary without those keys (and the code
reads them with `.get(…, default)`); a `last_restart` stored as Python
`None` and an absent key are indistinguishable through `.get`, so both
are `none`.  `hasProcess` records whether the `process` key (the Popen
handle) is present.
-/
structure ServiceInfo where
  pid : Option Nat
  port : Nat
  started_by : String
  start_time : Nat
  hasProcess : Bool
  restart_count : Option Nat
  last_restart : Option Nat
deriving Repr, DecidableEq

/-- Python truthiness of the `pid` value: `if not pid:` is taken for
both `None` and `0`. -/
def pidTruthy : Option Nat → Bool
  | none => false
  | some p => p != 0

/-- The `self.services` dictionary, keyed by service name. -/
abbrev Services := List (String × ServiceInfo)

/-- Dictionary lookup in `self.services`. -/
def lookupSvc (st : Services) (n : String) : Option ServiceInfo :=
  lookupAssoc st n

/-- Dictionary write `self.services[name] = v`. -/
def setSvc (st : Services) (n : String) (v : ServiceInfo) : Services :=
  setAssoc st n v

/-- Dictionary delete `del self.services[name]`. -/
def eraseSvc (st : Services) (n : String) : Services :=
  eraseAssoc st n

/-- Number of runtime-state entries for a name. -/
def countKey (st : Services) (n : String) : Nat :=
  countAssoc st n

/-! ## Process supervisor (`ServiceManager`) -/

/--
Operating-system environment consulted by `ServiceManager`:
`listeners` is the `psutil.net_connections()` snapshot restricted to
`LISTEN` rows, a list of (port, reported pid) pairs where the pid may be
unknown (`none`); `alive p` answers whether `psutil.Process(p)` exists
and `is_running()` (any `NoSuchProcess`/`AccessDenied` counts as
`false`); `pathOk` is `Path.exists` of a launch target; `spawn` is the
outcome of `subprocess.Popen` on a launch target (`some pid`, or `none`
when it raises); `now` is the current abstract timestamp.
-/
structure OsEnv where
  listeners : List (Nat × Option Nat)
  alive : Nat → Bool
  pathOk : String → Bool
  spawn : String → Option Nat
  now : Nat

/-- `is_port_in_use`: the first LISTEN row on the port gives `conn.pid`;
a row whose pid psutil does not know yields `None`, indistinguishable
from no row at all (the Python function returns `None` either way). -/
def is_port_in_use (env : OsEnv) (port : Nat) : Option Nat :=
  match List.find? (fun c => c.1 == port) env.listeners with
  | some c => c.2
  | none => none

/-- Python truthiness of an `Optional[int]` (`if existing_pid:`). -/
def optTruthy : Option Nat → Bool
  | none => false
  | some p => p != 0

/-- `is_service_running`: true only when a runtime state is tracked for
the name, its pid is truthy, and the OS reports that pid alive. -/
def is_service_running (st : Services) (alive : Nat → Bool) (service_name : String) : Bool :=
  match lookupSvc st service_name with
  | none => false
  | some info =>
    if pidTruthy info.pid then alive (info.pid.getD 0) else false

/-- Result of one `start_service` call.  `spawned` is instrumentation:
the pid of the process created by `subprocess.Popen` during this call,
`none` when no spawn happened. -/
structure StartResult where
  ok : Bool
  services : Services
  spawned : Option Nat
deriving Repr, DecidableEq

/--
`ServiceManager.start_service`, branch for branch:
1. port already in use by a truthy pid: adopt it (`started_by`
   is the literal `"external"` in the source) and succeed;
2. already tracked and alive: idempotent success;
3. launch target missing: fail, no state;
4. spawn: on `Popen` success record a `"guardian"` entry with
   `restart_count` 0 and `last_restart` `None`; on a raised exception
   fail with no state.
-/
def start_service (st : Services) (env : OsEnv) (config : Config) : StartResult :=
  let existing_pid := is_port_in_use env config.port
  if optTruthy existing_pid then
    { ok := true
      services := setSvc st config.name
        { pid := existing_pid, port := config.port, started_by := "external",
          start_time := env.now, hasProcess := false,
          restart_count := none, last_restart := none }
      spawned := none }
  else if is_service_running st env.alive config.name then
    { ok := true, services := st, spawned := none }
  else if ¬ env.pathOk config.path then
    { ok := false, services := st, spawned := none }
  else
    match env.spawn config.path with
    | none => { ok := false, services := st, spawned := none }
    | some newPid =>
      { ok := true
        services := setSvc st config.name
          { pid := some newPid, port := config.port, started_by := "guardian",
            start_time := env.now, hasProcess := true,
            restart_count := some 0, last_restart := none }
        spawned := some newPid }

/--
What the OS does when `stop_service` works on a tracked pid:
`missing` = `psutil.Process(pid)` (or the terminate) raises
`NoSuchProcess`; `denied` = `AccessDenied`; `graceful` = terminate then
`wait(10)` returns; `forced` = `wait(10)` times out, `kill`, `wait(5)`
returns; `stuck` = the second wait also times out, so the uncaught
`psutil.TimeoutExpired` escapes the method.
-/
inductive StopBehavior
  | missing
  | denied
  | graceful
  | forced
  | stuck
deriving Repr, DecidableEq

/--
`ServiceManager.stop_service`.  Returns `Except.error ()` exactly when a
`psutil.TimeoutExpired` from the post-kill wait escapes (that class is
not in the `except (NoSuchProcess, AccessDenied)` clause); otherwise
`Except.ok (result, new services)`.  Note that on `NoSuchProcess` /
`AccessDenied` the method returns `False` and the `del` is never
reached, so the stale entry stays tracked.
-/
def stop_service (st : Services) (behavior : Nat → StopBehavior) (service_name : String) :
    Except Unit (Bool × Services) :=
  match lookupSvc st service_name with
  | none => .ok (false, st)
  | some info =>
    if ¬ pidTruthy info.pid then .ok (false, st)
    else
      match behavior (info.pid.getD 0) with
      | .missing => .ok (false, st)
      | .denied => .ok (false, st)
      | .graceful => .ok (true, eraseSvc st service_name)
      | .forced => .ok (true, eraseSvc st service_name)
      | .stuck => .error ()

/-! ## Health monitor (`HealthMonitor`) -/

/-- Entry of `self.health_status[name]`: the healthy flag, the
`last_check` timestamp, and whether the entry carries a `response`
payload (success path) or an `error` string (exception path). -/
structure HealthRecord where
  healthy : Bool
  last_check : Nat
  fromResponse : Bool
deriving Repr, DecidableEq

/-- A JSON value as far as the guardian inspects it: the `status` field
is compared with the string `"healthy"`, so only string-ness and the
string itself matter. -/
inductive JVal
  | str (s : String)
  | other
deriving Repr, DecidableEq

/-- What `await response.json()` produced: a non-dict value (on which
`data.get` raises `AttributeError`) or a dict of fields. -/
inductive Payload
  | notDict
  | dict (fields : List (String × JVal))
deriving Repr, DecidableEq

/-- The network's answer to one health probe: `exn` is any exception
raised while connecting or reading (connection refused, timeout, …);
`resp status body` is an HTTP response, whose body parse may itself
raise (`Except.error ()`). -/
inductive HealthResp
  | exn
  | resp (status : Nat) (body : Except Unit Payload)
deriving Repr

/-- Field lookup `data.get s` on a parsed dict. -/
def getField (fields : List (String × JVal)) (s : String) : Option JVal :=
  (List.find? (fun p => p.1 == s) fields).map (·.2)

/-- `HealthMonitor.base_backoff` (5 seconds). -/
def base_backoff : Nat := 5

/-- `HealthMonitor.max_backoff` (300 seconds = 5 minutes). -/
def max_backoff : Nat := 300

/-- Combined mutable state reachable from the `HealthMonitor`: the
service manager's `services` dict plus the monitor's `health_status`
and `backoff_delays` dicts. -/
structure GuardianState where
  services : Services
  health_status : List (String × HealthRecord)
  backoff_delays : List (String × Nat)
deriving Repr, DecidableEq

/-- Dictionary lookup in `backoff_delays`. -/
def lookupBackoff (st : GuardianState) (n : String) : Option Nat :=
  lookupAssoc st.backoff_delays n

/-- Dictionary write in `backoff_delays`. -/
def setBackoff (st : GuardianState) (n : String) (v : Nat) : GuardianState :=
  { st with backoff_delays := setAssoc st.backoff_delays n v }

/-- Dictionary write in `health_status`. -/
def setHealth (st : GuardianState) (n : String) (v : HealthRecord) : GuardianState :=
  { st with health_status := setAssoc st.health_status n v }

/--
`HealthMonitor.check_health`.  The Python return type annotation says
`bool`, but the function body only returns inside `if response.status
== 200:` and inside the `except` clause; when a response arrives with a
non-200 status the function falls off the end and returns `None` —
hence the result type `Option Bool` (`none` = Python `None`).
Branches: any raised exception (transport, timeout, body parse,
`data.get` on a non-dict) lands in the `except` clause, records an
error `health_status` entry, and returns `False`; a 200 response with a
parsable dict body computes `data.get('status') == 'healthy'`, resets
the backoff to `base_backoff` when healthy, records the result, and
returns it.
-/
def check_health (st : GuardianState) (net : HealthResp) (now : Nat) (config : Config) :
    Option Bool × GuardianState :=
  match net with
  | .exn => (some false, setHealth st config.name ⟨false, now, false⟩)
  | .resp status body =>
    if status == 200 then
      match body with
      | .error _ => (some false, setHealth st config.name ⟨false, now, false⟩)
      | .ok .notDict => (some false, setHealth st config.name ⟨false, now, false⟩)
      | .ok (.dict fields) =>
        let is_healthy := getField fields "status" == some (.str "healthy")
        let st1 := if is_healthy then setBackoff st config.name base_backoff else st
        (some is_healthy, setHealth st1 config.name ⟨is_healthy, now, true⟩)
    else
      (none, st)

/-- `HealthMonitor.get_backoff_delay`: returns the recorded delay, first
materialising the floor into the dict when no entry exists. -/
def get_backoff_delay (st : GuardianState) (service_name : String) : Nat × GuardianState :=
  match lookupBackoff st service_name with
  | some d => (d, st)
  | none => (base_backoff, setBackoff st service_name base_backoff)

/-- `HealthMonitor.increase_backoff`: double the current delay (reading
absent as the floor), capped at `max_backoff`. -/
def increase_backoff (st : GuardianState) (service_name : String) : GuardianState :=
  let current := (lookupBackoff st service_name).getD base_backoff
  setBackoff st service_name (min (current * 2) max_backoff)

/-- Environment for one `restart_service` call: the stop behavior per
pid and the OS environment seen by the inner `start_service`. -/
structure RestartEnv where
  stopBehavior : Nat → StopBehavior
  os : OsEnv

/-- Result of one `restart_service` call.  `waited` is instrumentation:
the argument of the backoff `asyncio.sleep`. -/
structure RestartResult where
  ok : Bool
  state : GuardianState
  waited : Nat
deriving Repr, DecidableEq

/-- Tail of `HealthMonitor.restart_service` after the stop step, on
state `st1` (the state with the backoff materialised) and `svcs2` (the
services dict the stop step left): start the service, and on success
double the backoff and bump `restart_count` / `last_restart` on the
tracked entry (the `if service_name in self.services` guard is kept).
`delay` is the backoff delay that was slept, carried into the result's
`waited` field. -/
def restart_after_stop (st1 : GuardianState) (env : RestartEnv) (config : Config)
    (svcs2 : Services) (delay : Nat) : RestartResult :=
  let sres := start_service svcs2 env.os config
  let st3 : GuardianState := { st1 with services := sres.services }
  if sres.ok then
    let st4 := increase_backoff st3 config.name
    let st5 :=
      match lookupSvc st4.services config.name with
      | some info =>
        let info2 := { info with restart_count := some (info.restart_count.getD 0 + 1),
                                 last_restart := some env.os.now }
        { st4 with services := setSvc st4.services config.name info2 }
      | none => st4
    ⟨true, st5, delay⟩
  else
    ⟨false, st3, delay⟩

/--
`HealthMonitor.restart_service`: read (and materialise) the backoff
delay, sleep for it, stop the service ignoring the returned Boolean
(but an escaping exception from `stop_service` propagates), then run
the start-and-update tail (`restart_after_stop`).  Returns the start
outcome.
-/
def restart_service (st : GuardianState) (env : RestartEnv) (config : Config) :
    Except Unit RestartResult :=
  let dres := get_backoff_delay st config.name
  match stop_service dres.2.services env.stopBehavior config.name with
  | .error e => .error e
  | .ok (_, svcs2) => .ok (restart_after_stop dres.2 env config svcs2 dres.1)

/-! ## Orchestration loop (`background_monitor`) -/

/-- Python truthiness of `is_healthy` in `if not is_healthy:` — both
`None` and `False` are falsy. -/
def pyTruthy : Option Bool → Bool
  | none => false
  | some b => b

/-- Trace of what the cycle body did for one descriptor:
`running` is what `is_service_running` reported; `healthChecked` is
`none` when `check_health` was skipped and `some h` (with `h` the
truthiness of its result) when it was called; `restarted` records
whether `restart_service` was invoked for this descriptor. -/
structure Visit where
  name : String
  running : Bool
  healthChecked : Option Bool
  restarted : Bool
deriving Repr, DecidableEq

/-- Environment for one cycle of `background_monitor`: the liveness
oracle, and per service name the network's health answer and the
environment of a possible restart, plus the timestamp. -/
structure CycleEnv where
  alive : Nat → Bool
  health : String → HealthResp
  restartEnv : String → RestartEnv
  now : Nat

/--
Body of the `for config in STARTUP_ORDER:` loop of `background_monitor`
for one descriptor: if the service is not running, restart it and
`continue` (no health check); else check health and restart exactly
when the result is falsy.  Produces the new state, the `Visit` trace
entry, and whether an exception escaped (only a restart can raise
here; `check_health` never lets one escape).
-/
def cycle_step (st : GuardianState) (env : CycleEnv) (config : Config) :
    GuardianState × Visit × Bool :=
  if is_service_running st.services env.alive config.name then
    let cres := check_health st (env.health config.name) env.now config
    if ¬ pyTruthy cres.1 then
      match restart_service cres.2 (env.restartEnv config.name) config with
      | .error _ => (cres.2, ⟨config.name, true, some (pyTruthy cres.1), true⟩, true)
      | .ok r => (r.state, ⟨config.name, true, some (pyTruthy cres.1), true⟩, false)
    else
      (cres.2, ⟨config.name, true, some (pyTruthy cres.1), false⟩, false)
  else
    match restart_service st (env.restartEnv config.name) config with
    | .error _ => (st, ⟨config.name, false, none, true⟩, true)
    | .ok r => (r.state, ⟨config.name, false, none, true⟩, false)

/--
One cycle of `background_monitor` over a descriptor list: run
`cycle_step` for each descriptor in order, stopping early (with the
state and trace accumulated so far — Python mutates in place) when a
step raises.  The final Boolean reports whether an exception escaped
toward the loop's `except` clause.
-/
def cycle_body (st : GuardianState) (env : CycleEnv) :
    List Config → GuardianState × List Visit × Bool
  | [] => (st, [], false)
  | config :: rest =>
    let s := cycle_step st env config
    if s.2.2 then (s.1, [s.2.1], true)
    else
      let next := cycle_body s.1 env rest
      (next.1, s.2.1 :: next.2.1, next.2.2)

/-- Outcome of one iteration of the `while True:` loop in
`background_monitor`: either the loop goes on to a next cycle after
sleeping `sleep` seconds, or an exception escaped the loop body and the
loop died. -/
inductive LoopOutcome
  | next (st : GuardianState) (visits : List Visit) (sleep : Nat)
  | died
deriving Repr, DecidableEq

/-- Whether the loop's `except Exception` clause catches the one
exception class that can escape the cycle body in this embedding:
`psutil.TimeoutExpired` (raised by `stop_service` inside a restart)
derives from `psutil.Error`, which derives from `Exception`, so it is
caught. -/
def exceptionCatches : Unit → Bool
  | () => true

/--
One iteration of `background_monitor`'s `while True:` loop: run the
cycle body; a normal completion is followed by `asyncio.sleep(30)`; an
escaping exception hits `except Exception as e`, which (for any
exception class it catches) logs and sleeps 10 before the next
iteration.  An exception the clause would not catch would kill the
loop (`died`).
-/
def monitor_step (st : GuardianState) (env : CycleEnv) : LoopOutcome :=
  match cycle_body st env STARTUP_ORDER with
  | (s, visits, false) => .next s visits 30
  | (s, visits, true) =>
    if exceptionCatches () then .next s visits 10 else .died

/-! ## Scenario harness: repeated restarts -/

/-- Iterated `restart_service` for one service, collecting the backoff
delay waited before each attempt; iteration stops early if a restart
raises. -/
def restartDelays (env : RestartEnv) (config : Config) :
    GuardianState → Nat → List Nat
  | _, 0 => []
  | st, n + 1 =>
    match restart_service st env config with
    | .error _ => []
    | .ok r => r.waited :: restartDelays env config r.state n

/-! ## Concrete fixtures -/

/-- The `rag_service` descriptor of the registry. -/
def ragConfig : Config :=
  ⟨"rag_service", 8005, "backend/services/rag_service/service.py", "/health"⟩

/-- The `query_engine` descriptor of the registry. -/
def qeConfig : Config :=
  ⟨"query_engine", 8003, "backend/services/query_engine/service.py", "/health"⟩

/-- A restart environment in which every start succeeds by spawning:
no listener on any port, every pid reported dead (so the stop step hits
`NoSuchProcess` and returns `False`), the launch target exists and
`Popen` yields pid 1. -/
def alwaysSpawnEnv : RestartEnv :=
  { stopBehavior := fun _ => .missing
    os := { listeners := [], alive := fun _ => false, pathOk := fun _ => true,
            spawn := fun _ => some 1, now := 0 } }

/-- The empty guardian state: fresh supervisor, nothing tracked. -/
def emptyState : GuardianState := ⟨[], [], []⟩

/-- A runtime-state entry whose recorded process is long gone. -/
def staleInfo : ServiceInfo := ⟨some 4242, 8003, "guardian", 0, true, some 0, none⟩

/-- A services dict tracking only the stale `query_engine` entry. -/
def staleServices : Services := [("query_engine", staleInfo)]

/-- An OS view for a second start call: the pid 1 spawned by the first
call is alive, its port not yet visibly bound. -/
def aliveOneEnv : OsEnv :=
  { listeners := [], alive := fun p => p == 1, pathOk := fun _ => false,
    spawn := fun _ => none, now := 9 }

/-- An OS view in which an external process (pid 777) already listens
on port 8005. -/
def extEnv : OsEnv :=
  { listeners := [(8005, some 777)], alive := fun _ => false, pathOk := fun _ => false,
    spawn := fun _ => none, now := 3 }

/-- An OS view with a free port but a missing launch target. -/
def noTargetEnv : OsEnv :=
  { listeners := [], alive := fun _ => false, pathOk := fun _ => false,
    spawn := fun _ => none, now := 0 }

/-- A tracked, live `query_engine` entry with three recorded restarts. -/
def liveQeInfo : ServiceInfo := ⟨some 7, 8003, "guardian", 0, true, some 3, some 40⟩

/-- State for the C10 counterexample: `query_engine` tracked and its
backoff recorded at 20. -/
def liveQeState : GuardianState :=
  ⟨[("query_engine", liveQeInfo)], [], [("query_engine", 20)]⟩

/-- A restart environment whose stop step succeeds gracefully and
whose start step always fails (missing launch target). -/
def stopOkStartFailEnv : RestartEnv :=
  { stopBehavior := fun _ => .graceful, os := noTargetEnv }

/-- A cycle environment in which nothing is tracked alive and every
restart succeeds by spawning. -/
def allDeadCycleEnv : CycleEnv :=
  { alive := fun _ => false, health := fun _ => .exn,
    restartEnv := fun _ => alwaysSpawnEnv, now := 11 }

/-- A cycle environment whose first restart raises: every pid is
alive, every health probe fails, and the stop step of each restart
escalates past the forced kill (`psutil.TimeoutExpired` escapes). -/
def stuckCycleEnv : CycleEnv :=
  { alive := fun _ => true, health := fun _ => .exn,
    restartEnv := fun _ => { stopBehavior := fun _ => .stuck, os := noTargetEnv }, now := 12 }

/-! ## Dictionary lemmas -/

section AssocLemmas

variable {α : Type}

@[simp] theorem lookupAssoc_nil (n : String) : lookupAssoc ([] : List (String × α)) n = none := rfl

@[simp] theorem lookupAssoc_cons (k : String) (w : α) (tl : List (String × α)) (n : String) :
    lookupAssoc ((k, w) :: tl) n = if k == n then some w else lookupAssoc tl n := by
  by_cases h : k == n <;> simp [lookupAssoc, List.find?_cons, h]

theorem lookupAssoc_setAssoc_self (l : List (String × α)) (n : String) (v : α) :
    lookupAssoc (setAssoc l n v) n = some v := by
  induction l with
  | nil => simp [setAssoc]
  | cons hd tl ih =>
    obtain ⟨k, w⟩ := hd
    by_cases h : k == n
    · simp [setAssoc, h]
    · simp [setAssoc, h, ih]

@[simp] theorem countAssoc_nil (n : String) : countAssoc ([] : List (String × α)) n = 0 := rfl

@[simp] theorem countAssoc_cons (k : String) (w : α) (tl : List (String × α)) (n : String) :
    countAssoc ((k, w) :: tl) n = (if k == n then 1 else 0) + countAssoc tl n := by
  by_cases h : k == n <;> simp [countAssoc, List.filter_cons, h, Nat.add_comm]

theorem countAssoc_setAssoc (l : List (String × α)) (n : String) (v : α)
    (h : countAssoc l n ≤ 1) : countAssoc (setAssoc l n v) n = 1 := by
  induction l with
  | nil => simp [setAssoc]
  | cons hd tl ih =>
    obtain ⟨k, w⟩ := hd
    by_cases hk : k == n
    · have htl : countAssoc tl n = 0 := by
        have := h
        simp [countAssoc_cons, hk] at this
        omega
      simp [setAssoc, hk, countAssoc_cons, htl]
    · have htl : countAssoc tl n ≤ 1 := by
        have := h
        simp [countAssoc_cons, hk] at this
        omega
      simp [setAssoc, hk, countAssoc_cons, ih htl]

theorem countAssoc_pos_of_lookup (l : List (String × α)) (n : String) (v : α)
    (h : lookupAssoc l n = some v) : 1 ≤ countAssoc l n := by
  induction l with
  | nil => simp at h
  | cons hd tl ih =>
    obtain ⟨k, w⟩ := hd
    by_cases hk : k == n
    · simp [countAssoc_cons, hk]
    · simp [lookupAssoc_cons, hk] at h
      have := ih h
      simp [countAssoc_cons, hk]
      omega

end AssocLemmas

/-! ## Supervisor branch lemmas -/

theorem optTruthy_iff (o : Option Nat) :
    optTruthy o = true ↔ ∃ p, o = some p ∧ p ≠ 0 := by
  cases o <;> simp [optTruthy]

theorem is_service_running_lookup (st : Services) (alive : Nat → Bool) (n : String)
    (h : is_service_running st alive n = true) : ∃ info, lookupSvc st n = some info := by
  unfold is_service_running at h
  cases hl : lookupSvc st n
  · rw [hl] at h; exact absurd h (by simp)
  · exact ⟨_, rfl⟩

theorem is_service_running_dead (st : Services) (n : String) :
    is_service_running st (fun _ => false) n = false := by
  unfold is_service_running
  cases lookupSvc st n
  · rfl
  · simp

theorem start_service_adopt (st : Services) (env : OsEnv) (config : Config) (p : Nat)
    (hp : is_port_in_use env config.port = some p) (h0 : p ≠ 0) :
    start_service st env config =
      { ok := true
        services := setSvc st config.name
          { pid := some p, port := config.port, started_by := "external",
            start_time := env.now, hasProcess := false,
            restart_count := none, last_restart := none }
        spawned := none } := by
  unfold start_service
  simp [hp, optTruthy, h0]

theorem start_service_already (st : Services) (env : OsEnv) (config : Config)
    (hport : optTruthy (is_port_in_use env config.port) = false)
    (hrun : is_service_running st env.alive config.name = true) :
    start_service st env config = { ok := true, services := st, spawned := none } := by
  unfold start_service
  simp [hport, hrun]

theorem start_service_no_target (st : Services) (env : OsEnv) (config : Config)
    (hport : optTruthy (is_port_in_use env config.port) = false)
    (hrun : is_service_running st env.alive config.name = false)
    (hpath : env.pathOk config.path = false) :
    start_service st env config = { ok := false, services := st, spawned := none } := by
  unfold start_service
  simp [hport, hrun, hpath]

theorem start_service_spawn_exn (st : Services) (env : OsEnv) (config : Config)
    (hport : optTruthy (is_port_in_use env config.port) = false)
    (hrun : is_service_running st env.alive config.name = false)
    (hpath : env.pathOk config.path = true)
    (hspawn : env.spawn config.path = none) :
    start_service st env config = { ok := false, services := st, spawned := none } := by
  unfold start_service
  simp [hport, hrun, hpath, hspawn]

theorem start_service_spawn_ok (st : Services) (env : OsEnv) (config : Config) (q : Nat)
    (hport : optTruthy (is_port_in_use env config.port) = false)
    (hrun : is_service_running st env.alive config.name = false)
    (hpath : env.pathOk config.path = true)
    (hspawn : env.spawn config.path = some q) :
    start_service st env config =
      { ok := true
        services := setSvc st config.name
          { pid := some q, port := config.port, started_by := "guardian",
            start_time := env.now, hasProcess := true,
            restart_count := some 0, last_restart := none }
        spawned := some q } := by
  unfold start_service
  simp [hport, hrun, hpath, hspawn]

/-- On any failing `start_service` call, the services dict is untouched
and nothing was spawned. -/
theorem start_service_fail (st : Services) (env : OsEnv) (config : Config)
    (h : (start_service st env config).ok = false) :
    (start_service st env config).services = st ∧
    (start_service st env config).spawned = none := by
  by_cases hport : optTruthy (is_port_in_use env config.port) = true
  · obtain ⟨p, hp, h0⟩ := (optTruthy_iff _).1 hport
    rw [start_service_adopt st env config p hp h0] at h
    simp at h
  · rw [Bool.not_eq_true] at hport
    by_cases hrun : is_service_running st env.alive config.name = true
    · rw [start_service_already st env config hport hrun] at h
      simp at h
    · rw [Bool.not_eq_true] at hrun
      by_cases hpath : env.pathOk config.path = true
      · cases hspawn : env.spawn config.path with
        | none => rw [start_service_spawn_exn st env config hport hrun hpath hspawn]; exact ⟨rfl, rfl⟩
        | some q =>
          rw [start_service_spawn_ok st env config q hport hrun hpath hspawn] at h
          simp at h
      · rw [Bool.not_eq_true] at hpath
        rw [start_service_no_target st env config hport hrun hpath]
        exact ⟨rfl, rfl⟩

/-- On any successful `start_service` call, a runtime-state entry for
the name is present afterwards. -/
theorem start_service_ok_lookup (st : Services) (env : OsEnv) (config : Config)
    (h : (start_service st env config).ok = true) :
    ∃ info, lookupSvc (start_service st env config).services config.name = some info := by
  by_cases hport : optTruthy (is_port_in_use env config.port) = true
  · obtain ⟨p, hp, h0⟩ := (optTruthy_iff _).1 hport
    rw [start_service_adopt st env config p hp h0]
    exact ⟨_, lookupAssoc_setAssoc_self st config.name _⟩
  · rw [Bool.not_eq_true] at hport
    by_cases hrun : is_service_running st env.alive config.name = true
    · rw [start_service_already st env config hport hrun]
      exact is_service_running_lookup st env.alive config.name hrun
    · rw [Bool.not_eq_true] at hrun
      by_cases hpath : env.pathOk config.path = true
      · cases hspawn : env.spawn config.path with
        | none =>
          rw [start_service_spawn_exn st env config hport hrun hpath hspawn] at h
          simp at h
        | some q =>
          rw [start_service_spawn_ok st env config q hport hrun hpath hspawn]
          exact ⟨_, lookupAssoc_setAssoc_self st config.name _⟩
      · rw [Bool.not_eq_true] at hpath
        rw [start_service_no_target st env config hport hrun hpath] at h
        simp at h

/-- A successful `start_service` leaves exactly one runtime-state entry
for the name when the dict held at most one before. -/
theorem start_service_ok_count (st : Services) (env : OsEnv) (config : Config)
    (hcount : countKey st config.name ≤ 1)
    (h : (start_service st env config).ok = true) :
    countKey (start_service st env config).services config.name = 1 := by
  by_cases hport : optTruthy (is_port_in_use env config.port) = true
  · obtain ⟨p, hp, h0⟩ := (optTruthy_iff _).1 hport
    rw [start_service_adopt st env config p hp h0]
    exact countAssoc_setAssoc st config.name _ hcount
  · rw [Bool.not_eq_true] at hport
    by_cases hrun : is_service_running st env.alive config.name = true
    · rw [start_service_already st env config hport hrun]
      obtain ⟨info, hinfo⟩ := is_service_running_lookup st env.alive config.name hrun
      have h1 := countAssoc_pos_of_lookup st config.name info hinfo
      have h2 : countAssoc st config.name ≤ 1 := hcount
      show countAssoc st config.name = 1
      omega
    · rw [Bool.not_eq_true] at hrun
      by_cases hpath : env.pathOk config.path = true
      · cases hspawn : env.spawn config.path with
        | none =>
          rw [start_service_spawn_exn st env config hport hrun hpath hspawn] at h
          simp at h
        | some q =>
          rw [start_service_spawn_ok st env config q hport hrun hpath hspawn]
          exact countAssoc_setAssoc st config.name _ hcount
      · rw [Bool.not_eq_true] at hpath
        rw [start_service_no_target st env config hport hrun hpath] at h
        simp at h

/-! ## Backoff and monitor-state lemmas -/

theorem lookupBackoff_setBackoff_self (st : GuardianState) (n : String) (v : Nat) :
    lookupBackoff (setBackoff st n v) n = some v :=
  lookupAssoc_setAssoc_self st.backoff_delays n v

@[simp] theorem lookupBackoff_update_services (st : GuardianState) (x : Services) (n : String) :
    lookupBackoff { st with services := x } n = lookupBackoff st n := rfl

theorem get_backoff_delay_fst (st : GuardianState) (n : String) :
    (get_backoff_delay st n).1 = (lookupBackoff st n).getD base_backoff := by
  unfold get_backoff_delay
  cases h : lookupBackoff st n <;> simp [h]

theorem get_backoff_delay_services (st : GuardianState) (n : String) :
    (get_backoff_delay st n).2.services = st.services := by
  unfold get_backoff_delay
  cases h : lookupBackoff st n <;> rfl

theorem get_backoff_delay_health (st : GuardianState) (n : String) :
    (get_backoff_delay st n).2.health_status = st.health_status := by
  unfold get_backoff_delay
  cases h : lookupBackoff st n <;> rfl

theorem get_backoff_delay_lookup (st : GuardianState) (n : String) :
    lookupBackoff (get_backoff_delay st n).2 n = some ((lookupBackoff st n).getD base_backoff) := by
  unfold get_backoff_delay
  cases h : lookupBackoff st n
  · simpa using lookupBackoff_setBackoff_self st n base_backoff
  · simp [h]

theorem increase_backoff_services (st : GuardianState) (n : String) :
    (increase_backoff st n).services = st.services := rfl

theorem increase_backoff_health (st : GuardianState) (n : String) :
    (increase_backoff st n).health_status = st.health_status := rfl

theorem increase_backoff_lookup (st : GuardianState) (n : String) :
    lookupBackoff (increase_backoff st n) n =
      some (min ((lookupBackoff st n).getD base_backoff * 2) max_backoff) :=
  lookupBackoff_setBackoff_self st n _

/-! ## Stop lemmas -/

/-- With `NoSuchProcess` reported for every pid, `stop_service` always
returns `False` with the dict untouched. -/
theorem stop_service_missing_all (st : Services) (n : String) :
    stop_service st (fun _ => StopBehavior.missing) n = .ok (false, st) := by
  unfold stop_service
  cases lookupSvc st n with
  | none => rfl
  | some info => by_cases h : pidTruthy info.pid = true <;> simp [h]

/-- When no pid's stop escalates past the forced kill, `stop_service`
never raises. -/
theorem stop_service_no_stuck (st : Services) (behavior : Nat → StopBehavior) (n : String)
    (h : ∀ p, behavior p ≠ .stuck) :
    ∃ b svcs2, stop_service st behavior n = .ok (b, svcs2) := by
  unfold stop_service
  cases hl : lookupSvc st n with
  | none => exact ⟨false, st, rfl⟩
  | some info =>
    by_cases hp : pidTruthy info.pid = true
    · cases hb : behavior (info.pid.getD 0) with
      | stuck => exact absurd hb (h _)
      | missing => exact ⟨false, st, by simp [hp, hb]⟩
      | denied => exact ⟨false, st, by simp [hp, hb]⟩
      | graceful => exact ⟨true, eraseSvc st n, by simp [hp, hb]⟩
      | forced => exact ⟨true, eraseSvc st n, by simp [hp, hb]⟩
    · exact ⟨false, st, by simp [hp]⟩

/-! ## Restart characterisation -/

/-- Characterisation of the start-and-update tail of a restart, on the
post-stop state. -/
theorem restart_after_stop_spec (st1 : GuardianState) (env : RestartEnv) (config : Config)
    (svcs2 : Services) (delay : Nat) :
    (restart_after_stop st1 env config svcs2 delay).waited = delay ∧
    (restart_after_stop st1 env config svcs2 delay).ok = (start_service svcs2 env.os config).ok ∧
    (restart_after_stop st1 env config svcs2 delay).state.health_status = st1.health_status ∧
    ((start_service svcs2 env.os config).ok = true →
      lookupBackoff (restart_after_stop st1 env config svcs2 delay).state config.name =
        some (min ((lookupBackoff st1 config.name).getD base_backoff * 2) max_backoff) ∧
      ∃ info, lookupSvc (start_service svcs2 env.os config).services config.name = some info ∧
        lookupSvc (restart_after_stop st1 env config svcs2 delay).state.services config.name =
          some { info with restart_count := some (info.restart_count.getD 0 + 1),
                           last_restart := some env.os.now }) ∧
    ((start_service svcs2 env.os config).ok = false →
      (restart_after_stop st1 env config svcs2 delay).state.services = svcs2 ∧
      lookupBackoff (restart_after_stop st1 env config svcs2 delay).state config.name =
        lookupBackoff st1 config.name) := by
  by_cases hok : (start_service svcs2 env.os config).ok = true
  · obtain ⟨info, hinfo⟩ := start_service_ok_lookup svcs2 env.os config hok
    have heq : restart_after_stop st1 env config svcs2 delay =
        ⟨true,
         { increase_backoff
             { st1 with services := (start_service svcs2 env.os config).services } config.name with
           services := setSvc (start_service svcs2 env.os config).services config.name
             { info with restart_count := some (info.restart_count.getD 0 + 1),
                         last_restart := some env.os.now } },
         delay⟩ := by
      unfold restart_after_stop
      simp only [hok, if_true]
      have hscr : lookupSvc (increase_backoff
          { st1 with services := (start_service svcs2 env.os config).services }
            config.name).services config.name = some info := by
        rw [increase_backoff_services]
        exact hinfo
      rw [hscr]
      rfl
    rw [heq]
    refine ⟨rfl, by rw [hok], rfl, ?_, ?_⟩
    · intro _
      refine ⟨?_, info, hinfo, ?_⟩
      · show lookupBackoff (increase_backoff
            { st1 with services := (start_service svcs2 env.os config).services }
            config.name) config.name =
          some (min ((lookupBackoff st1 config.name).getD base_backoff * 2) max_backoff)
        rw [increase_backoff_lookup, lookupBackoff_update_services]
      · exact lookupAssoc_setAssoc_self _ config.name _
    · intro hfail
      rw [hok] at hfail
      exact absurd hfail (by simp)
  · rw [Bool.not_eq_true] at hok
    have heq : restart_after_stop st1 env config svcs2 delay =
        ⟨false, { st1 with services := (start_service svcs2 env.os config).services }, delay⟩ := by
      unfold restart_after_stop
      simp only [hok, Bool.false_eq_true, if_false]
    rw [heq]
    refine ⟨rfl, by rw [hok], rfl, ?_, ?_⟩
    · intro htrue
      rw [hok] at htrue
      exact absurd htrue (by simp)
    · intro _
      exact ⟨(start_service_fail svcs2 env.os config hok).1, rfl⟩

/--
Full characterisation of one `restart_service` call whose stop step
returned (did not raise): the waited delay is the recorded backoff
(floor when absent), the outcome is the start outcome, health records
are untouched; on start success the backoff is doubled-and-capped and
the tracked entry gets its counter bumped and its `last_restart` set;
on start failure the services dict is exactly what the stop step left
and the effective backoff is merely materialised, not changed.
-/
theorem restart_service_spec (st : GuardianState) (env : RestartEnv) (config : Config)
    (b : Bool) (svcs2 : Services)
    (hstop : stop_service st.services env.stopBehavior config.name = .ok (b, svcs2)) :
    ∃ r, restart_service st env config = .ok r ∧
      r.waited = (lookupBackoff st config.name).getD base_backoff ∧
      r.ok = (start_service svcs2 env.os config).ok ∧
      r.state.health_status = st.health_status ∧
      ((start_service svcs2 env.os config).ok = true →
        lookupBackoff r.state config.name =
          some (min ((lookupBackoff st config.name).getD base_backoff * 2) max_backoff) ∧
        ∃ info, lookupSvc (start_service svcs2 env.os config).services config.name = some info ∧
          lookupSvc r.state.services config.name =
            some { info with restart_count := some (info.restart_count.getD 0 + 1),
                             last_restart := some env.os.now }) ∧
      ((start_service svcs2 env.os config).ok = false →
        r.state.services = svcs2 ∧
        lookupBackoff r.state config.name =
          some ((lookupBackoff st config.name).getD base_backoff)) := by
  have hsv : (get_backoff_delay st config.name).2.services = st.services :=
    get_backoff_delay_services st config.name
  have heq : restart_service st env config =
      .ok (restart_after_stop (get_backoff_delay st config.name).2 env config svcs2
        (get_backoff_delay st config.name).1) := by
    simp only [restart_service]
    rw [hsv, hstop]
  obtain ⟨hw, ho, hh, hsucc, hfail⟩ :=
    restart_after_stop_spec (get_backoff_delay st config.name).2 env config svcs2
      (get_backoff_delay st config.name).1
  refine ⟨_, heq, ?_, ho, ?_, ?_, ?_⟩
  · rw [hw, get_backoff_delay_fst]
  · rw [hh, get_backoff_delay_health]
  · intro h
    obtain ⟨hb, info, hinfo, hlook⟩ := hsucc h
    refine ⟨?_, info, hinfo, hlook⟩
    rw [hb, get_backoff_delay_lookup]
    rfl
  · intro h
    obtain ⟨hserv, hb⟩ := hfail h
    exact ⟨hserv, by rw [hb, get_backoff_delay_lookup]⟩

/-! ## Cycle lemmas -/

theorem cycle_step_name (st : GuardianState) (env : CycleEnv) (config : Config) :
    (cycle_step st env config).2.1.name = config.name := by
  simp only [cycle_step]
  split
  · split
    · split <;> rfl
    · rfl
  · split <;> rfl

/-- The per-descriptor control flow of the cycle body: a dead service
skips the health check and is restarted; a live one is health-checked
and restarted exactly when the result was falsy. -/
theorem cycle_step_visit (st : GuardianState) (env : CycleEnv) (config : Config) :
    ((cycle_step st env config).2.1.running = false →
      (cycle_step st env config).2.1.healthChecked = none ∧
      (cycle_step st env config).2.1.restarted = true) ∧
    ((cycle_step st env config).2.1.running = true →
      ∃ h, (cycle_step st env config).2.1.healthChecked = some h ∧
        ((cycle_step st env config).2.1.restarted = true ↔ h = false)) := by
  simp only [cycle_step]
  split
  · split
    · rename_i hh
      have hh' : pyTruthy (check_health st (env.health config.name) env.now config).1 = false :=
        Bool.eq_false_iff.2 hh
      split <;>
        exact ⟨fun h => by simp at h, fun _ => ⟨_, rfl, by simp [hh']⟩⟩
    · rename_i hh
      have hh' : pyTruthy (check_health st (env.health config.name) env.now config).1 = true := by
        by_contra hc
        exact hh (Bool.eq_false_iff.2 hc ▸ by simp)
      exact ⟨fun h => by simp at h, fun _ => ⟨_, rfl, by simp [hh']⟩⟩
  · split <;>
      exact ⟨fun _ => ⟨rfl, rfl⟩, fun h => by simp at h⟩

theorem cycle_body_spec (env : CycleEnv) (cfgs : List Config) :
    ∀ st : GuardianState,
      ((cycle_body st env cfgs).2.2 = false →
        (cycle_body st env cfgs).2.1.map Visit.name = cfgs.map Config.name) ∧
      (∀ v ∈ (cycle_body st env cfgs).2.1,
        (v.running = false → v.healthChecked = none ∧ v.restarted = true) ∧
        (v.running = true →
          ∃ h, v.healthChecked = some h ∧ (v.restarted = true ↔ h = false))) := by
  induction cfgs with
  | nil =>
    intro st
    exact ⟨fun _ => rfl, fun v hv => by simp [cycle_body] at hv⟩
  | cons config rest ih =>
    intro st
    simp only [cycle_body]
    by_cases hs : (cycle_step st env config).2.2 = true
    · simp only [hs, if_true]
      refine ⟨fun h => by simp at h, fun v hv => ?_⟩
      simp only [List.mem_singleton] at hv
      subst hv
      exact cycle_step_visit st env config
    · rw [Bool.not_eq_true] at hs
      simp only [hs, Bool.false_eq_true, if_false]
      obtain ⟨ih1, ih2⟩ := ih (cycle_step st env config).1
      refine ⟨fun h => ?_, fun v hv => ?_⟩
      · simp only [List.map_cons]
        rw [cycle_step_name, ih1 h]
      · rcases List.mem_cons.1 hv with hv | hv
        · subst hv
          exact cycle_step_visit st env config
        · exact ih2 v hv

/-! ## Health/monitor lemmas for claims -/

@[simp] theorem lookupBackoff_setHealth (st : GuardianState) (n m : String) (v : HealthRecord) :
    lookupBackoff (setHealth st n v) m = lookupBackoff st m := rfl

/-- Under `alwaysSpawnEnv`, every start call succeeds via the spawn
branch. -/
theorem alwaysSpawnEnv_start (svcs : Services) (config : Config) :
    start_service svcs alwaysSpawnEnv.os config =
      { ok := true
        services := setSvc svcs config.name
          { pid := some 1, port := config.port, started_by := "guardian",
            start_time := 0, hasProcess := true,
            restart_count := some 0, last_restart := none }
        spawned := some 1 } := by
  exact start_service_spawn_ok svcs alwaysSpawnEnv.os config 1 rfl
    (is_service_running_dead svcs config.name) rfl rfl

/-! ## Claims -/

/--
C1: for a single service whose restarts repeatedly succeed but which
never passes a health check, the successive backoff delays applied
before the restart attempts are 5, 10, 20, 40, 80, 160, 300, 300
(floor 5, doubling after each successful restart, capped at the
ceiling 300); the delay stays at 300 from then on (any restart from a
state whose recorded backoff is 300 waits 300 and records 300 again);
and a single successful health check resets the recorded backoff
delay to 5.
-/
theorem backoff_doubles_caps_and_resets :
    restartDelays alwaysSpawnEnv ragConfig emptyState 8 = [5, 10, 20, 40, 80, 160, 300, 300] ∧
    (∀ st : GuardianState, lookupBackoff st ragConfig.name = some 300 →
      ∃ r, restart_service st alwaysSpawnEnv ragConfig = .ok r ∧ r.ok = true ∧
        r.waited = 300 ∧ lookupBackoff r.state ragConfig.name = some 300) ∧
    (∀ (st : GuardianState) (now : Nat),
      (check_health st (.resp 200 (.ok (.dict [("status", .str "healthy")]))) now ragConfig).1
        = some true ∧
      lookupBackoff
        (check_health st (.resp 200 (.ok (.dict [("status", .str "healthy")]))) now ragConfig).2
        ragConfig.name = some 5) := by
  refine ⟨by decide, ?_, ?_⟩
  · intro st h300
    obtain ⟨r, hr, hw, ho, _, hsucc, _⟩ :=
      restart_service_spec st alwaysSpawnEnv ragConfig false st.services
        (stop_service_missing_all st.services ragConfig.name)
    have hok : (start_service st.services alwaysSpawnEnv.os ragConfig).ok = true := by
      rw [alwaysSpawnEnv_start]
    obtain ⟨hb, -⟩ := hsucc hok
    refine ⟨r, hr, by rw [ho, hok], by rw [hw, h300]; rfl, ?_⟩
    rw [hb, h300]
    decide
  · intro st now
    have hfield : (getField [("status", JVal.str "healthy")] "status" ==
        some (JVal.str "healthy")) = true := by decide
    constructor
    · simp [check_health, hfield]
    · simp [check_health, hfield, lookupBackoff_setBackoff_self]
      rfl

/-- Witness for C1: concrete application of the capped-doubling clause
at a state whose recorded backoff is 300, and of the reset clause at
the empty state. -/
theorem backoff_doubles_caps_and_resets_witness :
    lookupBackoff ⟨[], [], [("rag_service", 300)]⟩ ragConfig.name = some 300 ∧
    (∃ r, restart_service ⟨[], [], [("rag_service", 300)]⟩ alwaysSpawnEnv ragConfig = .ok r ∧
      r.ok = true ∧ r.waited = 300 ∧ lookupBackoff r.state ragConfig.name = some 300) ∧
    lookupBackoff
      (check_health emptyState (.resp 200 (.ok (.dict [("status", .str "healthy")]))) 7
        ragConfig).2 ragConfig.name = some 5 :=
  ⟨by decide,
   backoff_doubles_caps_and_resets.2.1 ⟨[], [], [("rag_service", 300)]⟩ (by decide),
   (backoff_doubles_caps_and_resets.2.2 emptyState 7).2⟩

/--
C2 (code bug in the source): at a health response with a non-success
HTTP status, `check_health` falls off the end of the Python function
and returns `None` — not the boolean `False` that the claim (and the
function's own `-> bool` annotation) promise — and records nothing in
`health_status`: at this concrete input the result is `none`, which is
not `some false`, and the state is unchanged.
-/
theorem check_health_non_success_returns_none :
    check_health emptyState (.resp 500 (.ok (.dict [("status", .str "healthy")]))) 0 ragConfig
      = (none, emptyState) ∧
    (check_health emptyState (.resp 500 (.ok (.dict [("status", .str "healthy")]))) 0
        ragConfig).1 ≠ some false :=
  ⟨rfl, by decide⟩

/--
C3 counterexample: `stop_service` on a tracked name whose PID no
longer exists in the OS (`psutil.Process` raises `NoSuchProcess`)
returns `False` — not success — and leaves the runtime-state entry
tracked, contradicting the claim that it removes the state and
reports success.
-/
theorem stop_dead_pid_cx :
    stop_service staleServices (fun _ => StopBehavior.missing) "query_engine"
      = .ok (false, staleServices) ∧
    lookupSvc staleServices "query_engine" = some staleInfo :=
  ⟨rfl, rfl⟩

/--
C3 amended: `stop` on an untracked name fails with no state change;
`stop` on a tracked name whose PID no longer exists in the OS also
returns failure, and leaves the runtime-state entry in place (the
`except (NoSuchProcess, AccessDenied)` clause returns `False` before
the `del` is reached).
-/
theorem stop_untracked_and_dead_pid_fail_without_removal
    (st : Services) (behavior : Nat → StopBehavior) (n : String) :
    (lookupSvc st n = none → stop_service st behavior n = .ok (false, st)) ∧
    (∀ info, lookupSvc st n = some info → pidTruthy info.pid = true →
      behavior (info.pid.getD 0) = .missing →
      stop_service st behavior n = .ok (false, st)) := by
  constructor
  · intro h
    unfold stop_service
    rw [h]
  · intro info h hp hb
    unfold stop_service
    rw [h]
    simp [hp, hb]

/-- Witness for C3 (amended): both clauses at concrete inputs. -/
theorem stop_fail_without_removal_witness :
    stop_service ([] : Services) (fun _ => StopBehavior.missing) "query_engine"
      = .ok (false, []) ∧
    stop_service staleServices (fun _ => StopBehavior.missing) "query_engine"
      = .ok (false, staleServices) :=
  ⟨(stop_untracked_and_dead_pid_fail_without_removal [] _ "query_engine").1 rfl,
   (stop_untracked_and_dead_pid_fail_without_removal staleServices _ "query_engine").2
     staleInfo rfl (by decide) rfl⟩

/--
C4: start is idempotent — when a start call succeeded and, at the
second call with no intervening stop, the OS still reflects it (the
descriptor's port is bound by a truthy pid, or the runtime entry left
by the first call is alive), the second call also returns success,
spawns no new process, and exactly one runtime-state entry for the
name remains.
-/
theorem start_twice_idempotent (st : Services) (env1 env2 : OsEnv) (config : Config)
    (hcount : countKey st config.name ≤ 1)
    (h1 : (start_service st env1 config).ok = true)
    (h2 : optTruthy (is_port_in_use env2 config.port) = true ∨
          is_service_running (start_service st env1 config).services env2.alive config.name
            = true) :
    (start_service st env1 config).ok = true ∧
    (start_service (start_service st env1 config).services env2 config).ok = true ∧
    (start_service (start_service st env1 config).services env2 config).spawned = none ∧
    countKey (start_service (start_service st env1 config).services env2 config).services
      config.name = 1 := by
  have hc1 : countKey (start_service st env1 config).services config.name = 1 :=
    start_service_ok_count st env1 config hcount h1
  by_cases hp2 : optTruthy (is_port_in_use env2 config.port) = true
  · obtain ⟨p, hp, h0⟩ := (optTruthy_iff _).1 hp2
    rw [start_service_adopt (start_service st env1 config).services env2 config p hp h0]
    refine ⟨h1, rfl, rfl, ?_⟩
    exact countAssoc_setAssoc _ config.name _ (le_of_eq hc1)
  · rw [Bool.not_eq_true] at hp2
    have hrun : is_service_running (start_service st env1 config).services env2.alive
        config.name = true := by
      rcases h2 with h2 | h2
      · rw [hp2] at h2
        exact absurd h2 (by simp)
      · exact h2
    rw [start_service_already _ env2 config hp2 hrun]
    exact ⟨h1, rfl, rfl, hc1⟩

/-- Witness for C4: first call spawns (pid 1), second call sees that
pid alive and is an idempotent no-op success. -/
theorem start_twice_idempotent_witness :
    (start_service (start_service [] alwaysSpawnEnv.os ragConfig).services aliveOneEnv
      ragConfig).ok = true ∧
    (start_service (start_service [] alwaysSpawnEnv.os ragConfig).services aliveOneEnv
      ragConfig).spawned = none ∧
    countKey (start_service (start_service [] alwaysSpawnEnv.os ragConfig).services aliveOneEnv
      ragConfig).services ragConfig.name = 1 := by
  have h := start_twice_idempotent [] alwaysSpawnEnv.os aliveOneEnv ragConfig (by decide)
    (by decide) (Or.inr (by decide))
  exact ⟨h.2.1, h.2.2.1, h.2.2.2⟩

/--
C5: when the descriptor's port is already bound by a process whose pid
the OS reports (a truthy holder pid), start spawns nothing, records
that pid in the runtime state with the ownership tag the source spells
as the literal `"external"` (the spec's name for this tag value is
`adopted-external`), and returns success.
-/
theorem start_adopts_externally_bound_port (st : Services) (env : OsEnv) (config : Config)
    (p : Nat) (hp : is_port_in_use env config.port = some p) (h0 : p ≠ 0) :
    (start_service st env config).ok = true ∧
    (start_service st env config).spawned = none ∧
    ∃ info, lookupSvc (start_service st env config).services config.name = some info ∧
      info.pid = some p ∧ info.started_by = "external" := by
  rw [start_service_adopt st env config p hp h0]
  exact ⟨rfl, rfl, _, lookupAssoc_setAssoc_self st config.name _, rfl, rfl⟩

/-- Witness for C5: port 8005 held by external pid 777. -/
theorem start_adopts_externally_bound_port_witness :
    (start_service [] extEnv ragConfig).ok = true ∧
    (start_service [] extEnv ragConfig).spawned = none ∧
    ∃ info, lookupSvc (start_service [] extEnv ragConfig).services ragConfig.name = some info ∧
      info.pid = some 777 ∧ info.started_by = "external" :=
  start_adopts_externally_bound_port [] extEnv ragConfig 777 rfl (by decide)

/--
C6: when start reaches the spawn path (port not detected bound, no
live runtime state) and the launch target is missing or the spawn
raises, start returns failure and the services dict is exactly as
before — no runtime-state entry is created and nothing is spawned.
-/
theorem start_failure_no_partial_state (st : Services) (env : OsEnv) (config : Config)
    (hport : optTruthy (is_port_in_use env config.port) = false)
    (hrun : is_service_running st env.alive config.name = false)
    (hfail : env.pathOk config.path = false ∨ env.spawn config.path = none) :
    (start_service st env config).ok = false ∧
    (start_service st env config).services = st ∧
    (start_service st env config).spawned = none := by
  rcases hfail with h | h
  · rw [start_service_no_target st env config hport hrun h]
    exact ⟨rfl, rfl, rfl⟩
  · by_cases hpath : env.pathOk config.path = true
    · rw [start_service_spawn_exn st env config hport hrun hpath h]
      exact ⟨rfl, rfl, rfl⟩
    · rw [Bool.not_eq_true] at hpath
      rw [start_service_no_target st env config hport hrun hpath]
      exact ⟨rfl, rfl, rfl⟩

/-- Witness for C6: missing launch target, stale tracked entry kept
as-is. -/
theorem start_failure_no_partial_state_witness :
    (start_service staleServices noTargetEnv ragConfig).ok = false ∧
    (start_service staleServices noTargetEnv ragConfig).services = staleServices ∧
    (start_service staleServices noTargetEnv ragConfig).spawned = none :=
  start_failure_no_partial_state staleServices noTargetEnv ragConfig rfl
    (is_service_running_dead staleServices ragConfig.name) (Or.inl rfl)

/--
C7: in a cycle of the orchestration loop that completes without an
escaping exception, each descriptor of the registry is visited in
registry order; a descriptor reported not running is restarted with
its health check skipped; a running one is health-checked and
restarted exactly when the check's result was falsy.
-/
theorem cycle_visits_registry_in_order (st : GuardianState) (env : CycleEnv)
    (hne : (cycle_body st env STARTUP_ORDER).2.2 = false) :
    (cycle_body st env STARTUP_ORDER).2.1.map Visit.name = STARTUP_ORDER.map Config.name ∧
    (∀ v ∈ (cycle_body st env STARTUP_ORDER).2.1,
      (v.running = false → v.healthChecked = none ∧ v.restarted = true) ∧
      (v.running = true →
        ∃ h, v.healthChecked = some h ∧ (v.restarted = true ↔ h = false))) := by
  obtain ⟨h1, h2⟩ := cycle_body_spec env STARTUP_ORDER st
  exact ⟨h1 hne, h2⟩

/-- Witness for C7: a full cycle from the empty state in which every
service is dead, so all five are restarted in registry order. -/
theorem cycle_visits_registry_in_order_witness :
    (cycle_body emptyState allDeadCycleEnv STARTUP_ORDER).2.2 = false ∧
    (cycle_body emptyState allDeadCycleEnv STARTUP_ORDER).2.1.map Visit.name
      = STARTUP_ORDER.map Config.name :=
  ⟨by decide, (cycle_visits_registry_in_order emptyState allDeadCycleEnv (by decide)).1⟩

/--
C8: the orchestration loop never terminates because of a failure in
its cycle body: one loop iteration always continues to a next cycle —
after the normal inter-cycle sleep of 30 when the body completed, or,
when an exception escaped the body and was caught and logged by the
`except Exception` clause at the loop boundary, after the short
recovery sleep of 10.
-/
theorem monitor_loop_never_dies (st : GuardianState) (env : CycleEnv) :
    monitor_step st env ≠ .died ∧
    monitor_step st env = .next (cycle_body st env STARTUP_ORDER).1
      (cycle_body st env STARTUP_ORDER).2.1
      (if (cycle_body st env STARTUP_ORDER).2.2 then 10 else 30) := by
  unfold monitor_step
  rcases hc : cycle_body st env STARTUP_ORDER with ⟨s, visits, raised⟩
  cases raised
  · exact ⟨by simp, by simp⟩
  · exact ⟨by simp [exceptionCatches], by simp [exceptionCatches]⟩

/-- Witness for C8: a cycle in which the `query_engine` restart raises
`psutil.TimeoutExpired` still leaves the loop alive (10-second
recovery sleep). -/
theorem monitor_loop_never_dies_witness :
    (cycle_body ⟨staleServices, [], []⟩ stuckCycleEnv STARTUP_ORDER).2.2 = true ∧
    monitor_step ⟨staleServices, [], []⟩ stuckCycleEnv ≠ .died :=
  ⟨by decide, (monitor_loop_never_dies ⟨staleServices, [], []⟩ stuckCycleEnv).1⟩

/--
C9: restart first waits the service's current backoff delay (the
floor when none is recorded), then calls stop ignoring its result,
then calls start and returns the start outcome; exactly when the start
succeeds it doubles the recorded backoff delay (capped at the
ceiling), increments the runtime state's restart counter, and sets its
last-restart timestamp.
-/
theorem restart_waits_stops_starts_updates (st : GuardianState) (env : RestartEnv)
    (config : Config) (b : Bool) (svcs2 : Services)
    (hstop : stop_service st.services env.stopBehavior config.name = .ok (b, svcs2)) :
    ∃ r, restart_service st env config = .ok r ∧
      r.waited = (lookupBackoff st config.name).getD base_backoff ∧
      r.ok = (start_service svcs2 env.os config).ok ∧
      ((start_service svcs2 env.os config).ok = true →
        lookupBackoff r.state config.name =
          some (min ((lookupBackoff st config.name).getD base_backoff * 2) max_backoff) ∧
        ∃ info, lookupSvc (start_service svcs2 env.os config).services config.name = some info ∧
          lookupSvc r.state.services config.name =
            some { info with restart_count := some (info.restart_count.getD 0 + 1),
                             last_restart := some env.os.now }) ∧
      ((start_service svcs2 env.os config).ok = false →
        lookupBackoff r.state config.name =
          some ((lookupBackoff st config.name).getD base_backoff)) := by
  obtain ⟨r, hr, hw, ho, -, hsucc, hfail⟩ := restart_service_spec st env config b svcs2 hstop
  exact ⟨r, hr, hw, ho, hsucc, fun h => (hfail h).2⟩

/-- Witness for C9: restart of the stale `query_engine` entry under an
environment whose stop reports `NoSuchProcess` and whose start spawns
pid 1. -/
theorem restart_waits_stops_starts_updates_witness :
    ∃ r, restart_service ⟨staleServices, [], []⟩ alwaysSpawnEnv qeConfig = .ok r ∧
      r.waited = (lookupBackoff ⟨staleServices, [], []⟩ qeConfig.name).getD base_backoff ∧
      r.ok = (start_service staleServices alwaysSpawnEnv.os qeConfig).ok ∧
      ((start_service staleServices alwaysSpawnEnv.os qeConfig).ok = true →
        lookupBackoff r.state qeConfig.name =
          some (min ((lookupBackoff ⟨staleServices, [], []⟩ qeConfig.name).getD base_backoff * 2)
            max_backoff) ∧
        ∃ info, lookupSvc (start_service staleServices alwaysSpawnEnv.os qeConfig).services
            qeConfig.name = some info ∧
          lookupSvc r.state.services qeConfig.name =
            some { info with restart_count := some (info.restart_count.getD 0 + 1),
                             last_restart := some alwaysSpawnEnv.os.now }) ∧
      ((start_service staleServices alwaysSpawnEnv.os qeConfig).ok = false →
        lookupBackoff r.state qeConfig.name =
          some ((lookupBackoff ⟨staleServices, [], []⟩ qeConfig.name).getD base_backoff)) :=
  restart_waits_stops_starts_updates ⟨staleServices, [], []⟩ alwaysSpawnEnv qeConfig
    false staleServices rfl

/--
C10 counterexample: restarting `query_engine` from a state whose entry
records restart counter 3 (backoff recorded at 20), in an environment
where the stop step succeeds gracefully and the start step fails
(missing launch target): restart returns failure — and the runtime
entry, restart counter included, has been removed by the stop step
rather than left unchanged.
-/
theorem restart_fail_loses_counter_cx :
    restart_service liveQeState stopOkStartFailEnv qeConfig
      = .ok ⟨false, ⟨[], [], [("query_engine", 20)]⟩, 20⟩ ∧
    lookupSvc liveQeState.services "query_engine" = some liveQeInfo ∧
    liveQeInfo.restart_count = some 3 ∧
    lookupSvc ([] : Services) "query_engine" = none :=
  ⟨rfl, rfl, rfl, rfl⟩

/--
C10 amended: when restart's start step fails, restart performs none of
its success-path mutations — the result is failure, health records are
unchanged, the effective backoff delay is unchanged (a missing entry
is merely materialised at the floor), and no restart-counter increment
or last-restart update happens: the services dict is exactly what the
stop step left (which may itself have removed the entry).
Consequently, when the stop step never raises and start always fails
(e.g. a missing launch target), every restart attempt waits the same
constant effective backoff delay, forever.
-/
theorem restart_fail_constant_backoff (env : RestartEnv) (config : Config)
    (hstopBeh : ∀ p, env.stopBehavior p ≠ .stuck)
    (hstartAll : ∀ svcs : Services, (start_service svcs env.os config).ok = false)
    (st : GuardianState) :
    (∃ r, restart_service st env config = .ok r ∧ r.ok = false ∧
      r.state.health_status = st.health_status ∧
      (lookupBackoff r.state config.name).getD base_backoff
        = (lookupBackoff st config.name).getD base_backoff ∧
      ∃ b svcs2, stop_service st.services env.stopBehavior config.name = .ok (b, svcs2) ∧
        r.state.services = svcs2) ∧
    (∀ n : Nat, restartDelays env config st n
      = List.replicate n ((lookupBackoff st config.name).getD base_backoff)) := by
  have key : ∀ st' : GuardianState,
      ∃ r, restart_service st' env config = .ok r ∧ r.ok = false ∧
        r.state.health_status = st'.health_status ∧
        r.waited = (lookupBackoff st' config.name).getD base_backoff ∧
        (lookupBackoff r.state config.name).getD base_backoff
          = (lookupBackoff st' config.name).getD base_backoff ∧
        ∃ b svcs2, stop_service st'.services env.stopBehavior config.name = .ok (b, svcs2) ∧
          r.state.services = svcs2 := by
    intro st'
    obtain ⟨b, svcs2, hstop⟩ :=
      stop_service_no_stuck st'.services env.stopBehavior config.name hstopBeh
    obtain ⟨r, hr, hw, ho, hh, -, hfail⟩ := restart_service_spec st' env config b svcs2 hstop
    obtain ⟨hserv, hb⟩ := hfail (hstartAll svcs2)
    refine ⟨r, hr, by rw [ho, hstartAll svcs2], hh, hw, by rw [hb]; rfl, b, svcs2, hstop, hserv⟩
  constructor
  · obtain ⟨r, hr, hok, hhealth, hw, hbeff, b, svcs2, hstop, hserv⟩ := key st
    exact ⟨r, hr, hok, hhealth, hbeff, b, svcs2, hstop, hserv⟩
  · intro n
    induction n generalizing st with
    | zero => rfl
    | succ n ih =>
      obtain ⟨r, hr, -, -, hw, hb, -⟩ := key st
      show restartDelays env config st (n + 1) = _
      rw [show restartDelays env config st (n + 1) =
        (match restart_service st env config with
         | .error _ => []
         | .ok r => r.waited :: restartDelays env config r.state n) from rfl]
      rw [hr]
      show r.waited :: restartDelays env config r.state n = _
      rw [hw, ih r.state, hb, List.replicate_succ]

/-- Witness for C10 (amended): three failing restarts of the tracked
`query_engine`, each waiting the constant recorded backoff 20. -/
theorem restart_fail_constant_backoff_witness :
    restartDelays stopOkStartFailEnv qeConfig liveQeState 3 = [20, 20, 20] := by
  have h := restart_fail_constant_backoff stopOkStartFailEnv qeConfig
    (fun _ => by simp [stopOkStartFailEnv])
    (fun svcs => by
      show (start_service svcs noTargetEnv qeConfig).ok = false
      rw [start_service_no_target svcs noTargetEnv qeConfig rfl
        (is_service_running_dead svcs qeConfig.name) rfl])
    liveQeState
  rw [h.2 3]
  rfl

end Guardian
